import Mathlib

/-!
Verification of the video-transcription service (`src/app.py`).

The file shallowly embeds the pure pipeline logic of the service:
the regex-based field extractor `extract_info`, the audio-extraction
and transcription stage wrappers, the `/transcribe` request pipeline
with its temp-file lifecycle, and the `/download_excel` export
endpoint.  External collaborators (ffmpeg, moviepy, whisper, Flask)
are modelled by an environment record describing their outcomes for
one request; the file system is modelled by the existence flags of
the two per-request temporary files.
-/

namespace VideoApp

/-- The apostrophe character, used in the contraction trigger phrases. -/
def apos : Char := Char.ofNat 39

/-- Whitespace, as matched by the `\s` regex class and by `str.strip`
in Python (Unicode whitespace; the ASCII part plus the common Unicode
space characters). -/
def isPySpace (c : Char) : Bool :=
  c = ' ' || c = '\t' || c = '\n' || c = '\r' ||
  c = Char.ofNat 11 || c = Char.ofNat 12 ||
  c = Char.ofNat 28 || c = Char.ofNat 29 || c = Char.ofNat 30 || c = Char.ofNat 31 ||
  c = Char.ofNat 133 || c = Char.ofNat 160 || c = Char.ofNat 0x1680 ||
  (Char.ofNat 0x2000 ≤ c && c ≤ Char.ofNat 0x200a) ||
  c = Char.ofNat 0x2028 || c = Char.ofNat 0x2029 ||
  c = Char.ofNat 0x202f || c = Char.ofNat 0x205f || c = Char.ofNat 0x3000

/-- A character of the capture class `[A-Za-z\s]` of every pattern in
`extract_info`: an ASCII letter or whitespace. -/
def isNameChar (c : Char) : Bool :=
  ('A' ≤ c && c ≤ 'Z') || ('a' ≤ c && c ≤ 'z') || isPySpace c

/-- ASCII lowering, modelling how `re.IGNORECASE` compares the literal
parts of the patterns (all literals are ASCII). -/
def asciiLower (c : Char) : Char :=
  if 'A' ≤ c && c ≤ 'Z' then Char.ofNat (c.toNat + 32) else c

/-- Case-insensitive character match of a literal character `l`
against a text character `c`. -/
def charMatchCI (l c : Char) : Bool := asciiLower c = asciiLower l

/-- Match the literal part `lit` of a pattern case-insensitively at
the head of `s`; on success return the rest of `s`. -/
def matchLit : List Char → List Char → Option (List Char)
  | [], s => some s
  | _ :: _, [] => none
  | l :: ls, c :: cs => if charMatchCI l c then matchLit ls cs else none

/-- Whether the pattern `lit ++ ([A-Za-z\s]+)` matches at offset `i`
of `text`: the literal matches case-insensitively there and at least
one capture-class character follows. -/
def matchesAt (lit text : List Char) (i : Nat) : Bool :=
  match matchLit lit (text.drop i) with
  | some rest => !(rest.takeWhile isNameChar).isEmpty
  | none => false

/-- `re.search` for a pattern of the form `lit ++ ([A-Za-z\s]+)`:
scan left to right for the first position where the pattern matches,
and return the greedy capture (the maximal run of `[A-Za-z\s]`
characters after the literal).  Every pattern in `extract_info` has
this form. -/
def reSearchCapture (lit : List Char) : List Char → Option (List Char)
  | [] => none
  | c :: cs =>
    match matchLit lit (c :: cs) with
    | some rest =>
      let cap := rest.takeWhile isNameChar
      if cap.isEmpty then reSearchCapture lit cs else some cap
    | none => reSearchCapture lit cs

/-- Python `str.strip()`: remove leading and trailing whitespace. -/
def pyStrip (s : List Char) : List Char :=
  ((s.dropWhile isPySpace).reverse.dropWhile isPySpace).reverse

/-- Literal part of the pattern `my name is ([A-Za-z\s]+)`. -/
def litMyNameIs : List Char := "my name is ".toList
/-- Literal part of the pattern `myself ([A-Za-z\s]+)`. -/
def litMyself : List Char := "myself ".toList
/-- Literal part of the pattern `i am ([A-Za-z\s]+)`. -/
def litIAm : List Char := "i am ".toList
/-- Literal part of the pattern `this is me ([A-Za-z\s]+)`. -/
def litThisIsMe : List Char := "this is me ".toList
/-- Literal part of the contraction pattern (i, apostrophe, m). -/
def litIm : List Char := ['i', apos, 'm', ' ']
/-- Literal part of the location contraction pattern (i, apostrophe, m, from). -/
def litImFrom : List Char := ['i', apos, 'm', ' ', 'f', 'r', 'o', 'm', ' ']
/-- Literal part of the pattern `i live in ([A-Za-z\s]+)`. -/
def litILiveIn : List Char := "i live in ".toList
/-- Literal part of the pattern `i am from ([A-Za-z\s]+)`. -/
def litIAmFrom : List Char := "i am from ".toList
/-- Literal part of the pattern `then i moved to ([A-Za-z\s]+)`. -/
def litThenIMovedTo : List Char := "then i moved to ".toList

/-- The `name_patterns` list of `extract_info`, in source order
(priority order). -/
def name_patterns : List (List Char) :=
  [litMyNameIs, litMyself, litIAm, litThisIsMe, litIm]

/-- The `location_patterns` list of `extract_info`, in source order. -/
def location_patterns : List (List Char) :=
  [litImFrom, litILiveIn, litIAmFrom, litThenIMovedTo]

/-- The record returned by `extract_info`: both keys always present,
each value a string or null. -/
structure ExtractedInfo where
  name : Option (List Char)
  location : Option (List Char)
deriving DecidableEq, Repr

/-- The first-match loop of `extract_info`: try the patterns in
order; on the first that matches, return the stripped capture. -/
def firstCapture : List (List Char) → List Char → Option (List Char)
  | [], _ => none
  | p :: ps, text =>
    match reSearchCapture p text with
    | some cap => some (pyStrip cap)
    | none => firstCapture ps text

/-- `extract_info(text)` from `src/app.py`: independent first-match
extraction of a name and a location. -/
def extract_info (text : List Char) : ExtractedInfo :=
  { name := firstCapture name_patterns text,
    location := firstCapture location_patterns text }

/-! ## The transcribe pipeline

The pipeline stages call external collaborators (ffmpeg via
subprocess, moviepy, whisper).  Their outcomes for one request are
collected in an `Env` record; the two per-request temporary files
(the staged `.mp4` video and the extracted `.wav` audio) are modelled
by existence flags, since their names are unique per request. -/

/-- Existence of the per-request temporary files on disk. -/
structure FS where
  videoExists : Bool
  audioExists : Bool
deriving DecidableEq, Repr

/-- Outcomes of the external collaborators for one request. -/
structure Env where
  /-- the multipart payload has a `video` field -/
  hasVideoField : Bool
  /-- `check_ffmpeg()` succeeds -/
  ffmpegOk : Bool
  /-- `VideoFileClip(video_path)` raises -/
  clipOpenFails : Bool
  /-- message of the `VideoFileClip` exception -/
  clipOpenMsg : String
  /-- the opened clip has an audio stream (`clip.audio` is not None) -/
  hasAudioStream : Bool
  /-- `clip.audio.write_audiofile(...)` raises -/
  writeAudioFails : Bool
  /-- message of the `write_audiofile` exception -/
  writeAudioMsg : String
  /-- the global whisper model has been loaded -/
  modelLoaded : Bool
  /-- `whisper_model.transcribe(...)` raises -/
  whisperFails : Bool
  /-- message of the whisper exception -/
  whisperMsg : String
  /-- `result["text"]` returned by whisper on success -/
  whisperText : String

/-- `extract_audio(video_path)` from `src/app.py`.  Returns the file
system after the call and the `(audio_path, error)` pair.  The
`NamedTemporaryFile(delete=False)` call creates the `.wav` file on
disk before the clip is opened, so every later failure leaves it
behind; the function then returns `None` for the path, so the caller
cannot remove it. -/
def extract_audio (env : Env) (fs : FS) : FS × (Option String × Option String) :=
  if !env.ffmpegOk then
    (fs, (none, some "ffmpeg is not installed or not working properly"))
  else
    -- with tempfile.NamedTemporaryFile(delete=False, suffix=".wav"): creates the file
    let fs := { fs with audioExists := true }
    if env.clipOpenFails then
      (fs, (none, some env.clipOpenMsg))
    else if !env.hasAudioStream then
      (fs, (none, some "No audio stream found in video"))
    else if env.writeAudioFails then
      (fs, (none, some env.writeAudioMsg))
    else
      (fs, (some "audio.wav", none))

/-- `transcribe_audio(audio_path)` from `src/app.py`: the
`whisper_model is None` check raises inside the `try`, so both that
failure and a whisper failure are caught and returned as the error
component. -/
def transcribe_audio (env : Env) (_audio_path : Option String) :
    Option String × Option String :=
  if !env.modelLoaded then
    (none, some "Whisper model not loaded")
  else if env.whisperFails then
    (none, some env.whisperMsg)
  else
    (some env.whisperText, none)

/-- Body of an HTTP response of the `/transcribe` endpoint. -/
inductive TBody where
  /-- `jsonify({"error": msg})` -/
  | jsonError (msg : String)
  /-- `jsonify({"transcription": ..., "extracted_info": ...})` -/
  | jsonOk (transcription : String) (info : ExtractedInfo)
  /-- the generic framework error page produced when an exception
  escapes the handler (here: the `TypeError` raised by
  `os.path.exists(None)` in the `finally` block) -/
  | internalError
deriving DecidableEq, Repr

/-- Result of one `/transcribe` request: HTTP status, response body,
and the state of the per-request temporary files after the request. -/
structure TResult where
  status : Nat
  body : TBody
  fs : FS
deriving DecidableEq, Repr

/-- The `try` block of the `transcribe` handler (lines 112-128 of
`src/app.py`), producing the status and body the handler intends to
return.  A `transcription` of `None` with no error would make
`re.search` raise `TypeError` inside the `try`, caught by the
`except` branch; this branch is unreachable given `transcribe_audio`. -/
def tryBlock (env : Env) (audio_path : Option String) (audio_error : Option String) :
    Nat × TBody :=
  match audio_error with
  | some e => (500, .jsonError e)
  | none =>
    match transcribe_audio env audio_path with
    | (_, some e) => (500, .jsonError e)
    | (some t, none) => (200, .jsonOk t (extract_info t.toList))
    | (none, none) => (500, .jsonError "expected string or bytes-like object, got NoneType")

/-- The `finally` block of the `transcribe` handler (lines 129-133).
The video temp file is removed if it exists.  `audio_path` is always
in `locals()` here (it is assigned by the first statement of the
`try`, which cannot raise), so `os.path.exists(audio_path)` is always
evaluated: when `audio_path` is `None` it raises `TypeError`, which
replaces the pending return value and makes the framework send its
generic 500 error page. -/
def finallyBlock (audio_path : Option String) (pending : Nat × TBody) (fs : FS) :
    TResult :=
  let fs1 := if fs.videoExists then { fs with videoExists := false } else fs
  match audio_path with
  | none => ⟨500, .internalError, fs1⟩
  | some _ =>
    let fs2 := if fs1.audioExists then { fs1 with audioExists := false } else fs1
    ⟨pending.1, pending.2, fs2⟩

/-- The `/transcribe` endpoint (lines 101-133 of `src/app.py`). -/
def transcribe (env : Env) : TResult :=
  if !env.hasVideoField then
    ⟨400, .jsonError "No video file provided", ⟨false, false⟩⟩
  else
    -- with tempfile.NamedTemporaryFile(delete=False, suffix=".mp4"): stage the upload
    let staged : FS := ⟨true, false⟩
    let (fs1, ares) := extract_audio env staged
    let pending := tryBlock env ares.1 ares.2
    finallyBlock ares.1 pending fs1

/-! ## The export endpoint -/

/-- A JSON value, as far as the export endpoint inspects one:
null, a string, or an object (an association list of fields, first
binding wins, as in a Python dict). -/
inductive JVal where
  | null
  | str (s : String)
  | obj (fields : List (String × JVal))

/-- Dictionary lookup: the value bound to key `k`, if any. -/
def jLookup (k : String) : List (String × JVal) → Option JVal
  | [] => none
  | (k2, v) :: fs => if k2 = k then some v else jLookup k fs

/-- Python truthiness of a JSON value: `None`, `""` and `{}` are
falsy. -/
def pyTruthy : JVal → Bool
  | .null => false
  | .str s => !(s = "")
  | .obj fs => !fs.isEmpty

/-- Python `v.get(k, d)`: defaults only when the key is absent from a
dict; calling `.get` on a non-dict (in particular on `None`) raises
`AttributeError`, modelled as the error case. -/
def pyGet (v : JVal) (k : String) (d : JVal) : Except String JVal :=
  match v with
  | .obj fs =>
    match jLookup k fs with
    | some x => .ok x
    | none => .ok d
  | .null => .error "AttributeError: NoneType object has no attribute get"
  | .str _ => .error "AttributeError: str object has no attribute get"

/-- One row of the exported spreadsheet, in the column order of the
source. -/
structure Row where
  location : JVal
  name : JVal
  transcription : JVal

/-- The row-building expression of `download_excel` (lines 142-146 of
`src/app.py`): each cell re-reads the body with `.get` defaults. -/
def buildRow (data : JVal) : Except String Row := do
  let ei1 ← pyGet data "extracted_info" (.obj [])
  let loc ← pyGet ei1 "location" (.str "N/A")
  let ei2 ← pyGet data "extracted_info" (.obj [])
  let nm ← pyGet ei2 "name" (.str "N/A")
  let tr ← pyGet data "transcription" (.str "")
  .ok ⟨loc, nm, tr⟩

/-- Response of the `/download_excel` endpoint. -/
inductive ExportResponse where
  /-- status 400 with `jsonify({"error": msg})` -/
  | badRequest (msg : String)
  /-- status 200 with the written spreadsheet as an attachment -/
  | file (rows : List Row)
  /-- status 500 with `jsonify({"error": msg})` -/
  | serverError (msg : String)

/-- HTTP status of an export response. -/
def ExportResponse.status : ExportResponse → Nat
  | .badRequest _ => 400
  | .file _ => 200
  | .serverError _ => 500

/-- The `/download_excel` endpoint (lines 135-152 of `src/app.py`).

Modelled from the spec: the framework call `request.get_json()` is
outside the repository; per the spec contract ("400 if body
absent/empty") an absent or empty request body is modelled as parsing
to no data (`none`), which the falsiness check then rejects with 400.
A parsed body is a `JVal`.  `pd.DataFrame([{...}])` builds a one-row
table from the singleton record list. -/
def download_excel (parsed : Option JVal) : ExportResponse :=
  match parsed with
  | none => .badRequest "No JSON data provided"
  | some data =>
    if !pyTruthy data then .badRequest "No JSON data provided"
    else
      match buildRow data with
      | .ok row => .file [row]
      | .error e => .serverError e

/-! ## Concrete test data -/

/-- Whether `sub` occurs as a contiguous substring of `text`. -/
def hasSubstr (sub : List Char) : List Char → Bool
  | [] => sub.isEmpty
  | c :: cs => sub.isPrefixOf (c :: cs) || hasSubstr sub cs

/-- An environment for a request on which every stage succeeds. -/
def envHappy : Env :=
  { hasVideoField := true, ffmpegOk := true, clipOpenFails := false,
    clipOpenMsg := "failed to read video", hasAudioStream := true,
    writeAudioFails := false, writeAudioMsg := "transcode failed",
    modelLoaded := true, whisperFails := false, whisperMsg := "decode failed",
    whisperText := "my name is John Smith" }

/-- A transcript matching both the `my name is` pattern and the
contraction pattern. -/
def mixedText : List Char :=
  "my name is Al. ".toList ++ litIm ++ "Bo".toList

/-! ## Helper lemmas -/

theorem firstCapture_eq_none_of_all_none (ps : List (List Char)) (text : List Char)
    (h : ∀ p ∈ ps, reSearchCapture p text = none) :
    firstCapture ps text = none := by
  induction ps with
  | nil => rfl
  | cons p ps ih =>
    have hp : reSearchCapture p text = none := h p (List.mem_cons_self p ps)
    simp only [firstCapture, hp]
    exact ih fun q hq => h q (List.mem_cons_of_mem p hq)

theorem matchLit_append_self (lit r : List Char) :
    matchLit lit (lit ++ r) = some r := by
  induction lit with
  | nil => rfl
  | cons c cs ih => simp [matchLit, charMatchCI, ih]

theorem matchLit_eq_drop (lit : List Char) :
    ∀ s r : List Char, matchLit lit s = some r → r = s.drop lit.length := by
  induction lit with
  | nil =>
    intro s r h
    simp [matchLit] at h
    simp [h]
  | cons c cs ih =>
    intro s r h
    cases s with
    | nil => simp [matchLit] at h
    | cons d ds =>
      simp only [matchLit] at h
      split at h
      · simpa using ih ds r h
      · cases h

theorem matchesAt_cons (lit : List Char) (c : Char) (cs : List Char) (j : Nat) :
    matchesAt lit (c :: cs) (j + 1) = matchesAt lit cs j := by
  simp [matchesAt, List.drop_succ_cons]

/-- If the pattern `lit ++ ([A-Za-z\s]+)` matches at offset `i` and at
no earlier offset, then `re.search` returns the greedy capture of the
match at `i`. -/
theorem reSearchCapture_of_first (lit : List Char) (i : Nat) :
    ∀ text : List Char,
      (∀ j, j < i → matchesAt lit text j = false) →
      matchesAt lit text i = true →
      reSearchCapture lit text =
        some ((text.drop (i + lit.length)).takeWhile isNameChar) := by
  induction i with
  | zero =>
    intro text _ hi
    cases text with
    | nil =>
      exfalso
      unfold matchesAt at hi
      rw [List.drop_nil] at hi
      cases lit <;> simp [matchLit] at hi
    | cons c cs =>
      unfold matchesAt at hi
      rw [List.drop_zero] at hi
      cases hml : matchLit lit (c :: cs) with
      | none => rw [hml] at hi; simp at hi
      | some rest =>
        rw [hml] at hi
        simp only [Bool.not_eq_true'] at hi
        have hdrop := matchLit_eq_drop lit (c :: cs) rest hml
        simp only [reSearchCapture, hml, hi, Bool.false_eq_true, if_false]
        rw [hdrop, Nat.zero_add]
  | succ i ih =>
    intro text hlt hi
    cases text with
    | nil =>
      exfalso
      unfold matchesAt at hi
      rw [List.drop_nil] at hi
      cases lit <;> simp [matchLit] at hi
    | cons c cs =>
      have h0 : matchesAt lit (c :: cs) 0 = false := hlt 0 (Nat.succ_pos i)
      have hrec : reSearchCapture lit (c :: cs) = reSearchCapture lit cs := by
        unfold matchesAt at h0
        rw [List.drop_zero] at h0
        cases hml : matchLit lit (c :: cs) with
        | none => simp [reSearchCapture, hml]
        | some rest =>
          rw [hml] at h0
          simp only [Bool.not_eq_false'] at h0
          simp [reSearchCapture, hml, h0]
      rw [hrec]
      rw [ih cs
        (fun j hj => by
          rw [← matchesAt_cons lit c cs j]
          exact hlt (j + 1) (Nat.succ_lt_succ hj))
        (by rw [← matchesAt_cons lit c cs i]; exact hi)]
      congr 1
      rw [show i + 1 + lit.length = (i + lit.length) + 1 from by omega,
        List.drop_succ_cons]

theorem takeWhile_append_of_all (q : Char → Bool) (a b : List Char)
    (h : a.all q = true) :
    (a ++ b).takeWhile q = a ++ b.takeWhile q := by
  induction a with
  | nil => rfl
  | cons c cs ih =>
    simp only [List.all_cons, Bool.and_eq_true] at h
    simp [List.takeWhile_cons, h.1, ih h.2]

theorem dropWhile_append_of_all (q : Char → Bool) (a b : List Char)
    (h : a.all q = true) :
    (a ++ b).dropWhile q = b.dropWhile q := by
  induction a with
  | nil => rfl
  | cons c cs ih =>
    simp only [List.all_cons, Bool.and_eq_true] at h
    simp [List.dropWhile_cons, h.1, ih h.2]

/-- Stripping a string that starts and ends with non-whitespace and is
followed by only whitespace removes exactly that trailing
whitespace. -/
theorem pyStrip_append_spaces (c : Char) (xs w : List Char)
    (hc : isPySpace c = false)
    (hlast : (c :: xs).reverse.dropWhile isPySpace = (c :: xs).reverse)
    (hw : w.all isPySpace = true) :
    pyStrip ((c :: xs) ++ w) = c :: xs := by
  unfold pyStrip
  have h1 : ((c :: xs) ++ w).dropWhile isPySpace = (c :: xs) ++ w := by
    rw [List.cons_append, List.dropWhile_cons]
    simp [hc]
  rw [h1, List.reverse_append,
    dropWhile_append_of_all _ _ _ (by simpa using hw), hlast,
    List.reverse_reverse]

/-! ## Claims about the field extractor -/

/-- Claim C6: `extract_info` is total, always returns both keys, and
when no name trigger pattern and no location trigger pattern matches
the text, it returns a record with both fields null. -/
theorem extract_info_no_trigger_yields_nulls (text : List Char)
    (hn : ∀ p ∈ name_patterns, reSearchCapture p text = none)
    (hl : ∀ p ∈ location_patterns, reSearchCapture p text = none) :
    extract_info text = ⟨none, none⟩ := by
  unfold extract_info
  rw [firstCapture_eq_none_of_all_none _ _ hn, firstCapture_eq_none_of_all_none _ _ hl]

/-- Witness for C6 at the text `hello world`, which matches no
trigger pattern. -/
theorem extract_info_no_trigger_yields_nulls_witness :
    extract_info "hello world".toList = ⟨none, none⟩ :=
  extract_info_no_trigger_yields_nulls _ (by decide) (by decide)

/-- Claim C5: a text matching both the `my name is` pattern and the
contraction pattern yields the stripped capture of `my name is`, the
first pattern in the fixed priority order. -/
theorem extract_info_priority_my_name_is (text cap : List Char)
    (h1 : reSearchCapture litMyNameIs text = some cap)
    (_h2 : ∃ cap2, reSearchCapture litIm text = some cap2) :
    (extract_info text).name = some (pyStrip cap) := by
  simp only [extract_info, name_patterns, firstCapture, h1]

/-- Witness for C5 at a text matching both patterns: the `my name is`
capture wins. -/
theorem extract_info_priority_my_name_is_witness :
    (extract_info mixedText).name = some (pyStrip "Al".toList) :=
  extract_info_priority_my_name_is mixedText "Al".toList (by decide)
    ⟨"Bo".toList, by decide⟩

/-- Claim C3, counterexample: the text `my name is John Smithy`
contains the substring `my name is John Smith`, and no name pattern
other than `my name is` matches it at all, yet the greedy capture
yields `John Smithy`, not `John Smith`. -/
theorem extract_info_greedy_overcapture :
    hasSubstr "my name is John Smith".toList "my name is John Smithy".toList = true ∧
    (∀ q ∈ name_patterns, q ≠ litMyNameIs →
      reSearchCapture q "my name is John Smithy".toList = none) ∧
    (extract_info "my name is John Smithy".toList).name ≠
      some "John Smith".toList := by
  exact ⟨by decide, by decide, by decide⟩

/-- Claim C3, amended: for every text of the form
`p ++ "my name is John Smith" ++ s` in which no match of the
`my name is` pattern begins before the given occurrence and the
capture-class run at the start of `s` is all whitespace (so the
greedy capture strips back to exactly `John Smith`), `extract_info`
returns the name `John Smith`. -/
theorem extract_info_my_name_is_john_smith (p s : List Char)
    (hfirst : ∀ i, i < p.length →
      matchesAt litMyNameIs (p ++ "my name is John Smith".toList ++ s) i = false)
    (hs : (s.takeWhile isNameChar).all isPySpace = true) :
    (extract_info (p ++ "my name is John Smith".toList ++ s)).name =
      some "John Smith".toList := by
  have hX : "my name is John Smith".toList = litMyNameIs ++ "John Smith".toList := by
    decide
  have hassoc : p ++ "my name is John Smith".toList ++ s =
      (p ++ litMyNameIs) ++ ("John Smith".toList ++ s) := by
    rw [hX]
    simp [List.append_assoc]
  have hdrop : (p ++ "my name is John Smith".toList ++ s).drop p.length =
      litMyNameIs ++ ("John Smith".toList ++ s) := by
    rw [hassoc, List.append_assoc, List.drop_left]
  have hmatch : matchesAt litMyNameIs (p ++ "my name is John Smith".toList ++ s)
      p.length = true := by
    unfold matchesAt
    rw [hdrop, matchLit_append_self]
    show !(List.takeWhile isNameChar ("John Smith".toList ++ s)).isEmpty = true
    rw [takeWhile_append_of_all _ _ _ (by decide),
      show "John Smith".toList = 'J' :: "ohn Smith".toList from by decide,
      List.cons_append]
    rfl
  have hsearch := reSearchCapture_of_first litMyNameIs p.length
    (p ++ "my name is John Smith".toList ++ s) hfirst hmatch
  have hdrop2 : (p ++ "my name is John Smith".toList ++ s).drop
      (p.length + litMyNameIs.length) = "John Smith".toList ++ s := by
    rw [hassoc, ← List.length_append, List.drop_left]
  rw [hdrop2, takeWhile_append_of_all _ _ _ (by decide)] at hsearch
  have hname : (extract_info (p ++ "my name is John Smith".toList ++ s)).name =
      some (pyStrip ("John Smith".toList ++ s.takeWhile isNameChar)) := by
    simp only [extract_info, name_patterns, firstCapture, hsearch]
  rw [hname, show "John Smith".toList = 'J' :: "ohn Smith".toList from by decide,
    pyStrip_append_spaces 'J' _ _ (by decide) (by decide) hs]

/-- Witness for the amended C3 at a text with a prefix, trailing
whitespace and a trailing clause after the occurrence. -/
theorem extract_info_my_name_is_john_smith_witness :
    (∀ i, i < ("so ".toList).length →
      matchesAt litMyNameIs
        ("so ".toList ++ "my name is John Smith".toList ++ "  , bye".toList) i
        = false) ∧
    (("  , bye".toList.takeWhile isNameChar).all isPySpace = true) ∧
    (extract_info
        ("so ".toList ++ "my name is John Smith".toList ++ "  , bye".toList)).name =
      some "John Smith".toList :=
  ⟨by decide, by decide,
    extract_info_my_name_is_john_smith "so ".toList "  , bye".toList
      (by decide) (by decide)⟩

/-! ## Claims about the pipeline stages -/

/-- Claim C9: `extract_audio` and `transcribe_audio` always return a
pair with exactly one null component — a result with no error, or no
result with an error message — and, being total functions of the
modelled outcomes, let no exception escape. -/
theorem stage_results_exactly_one_null (env : Env) (fs : FS) (p : Option String) :
    (((extract_audio env fs).2.1.isSome ∧ (extract_audio env fs).2.2 = none) ∨
      ((extract_audio env fs).2.1 = none ∧ (extract_audio env fs).2.2.isSome)) ∧
    (((transcribe_audio env p).1.isSome ∧ (transcribe_audio env p).2 = none) ∨
      ((transcribe_audio env p).1 = none ∧ (transcribe_audio env p).2.isSome)) := by
  obtain ⟨hv, ff, co, cm, has, wf, wm, ml, whf, whm, wt⟩ := env
  cases ff <;> cases co <;> cases has <;> cases wf <;> cases ml <;> cases whf <;>
    simp [extract_audio, transcribe_audio]

/-- Claim C7: a `/transcribe` request without a `video` field in the
multipart payload gets status 400 with a JSON error body, and no
temporary file is created. -/
theorem transcribe_missing_video_field (env : Env)
    (h : env.hasVideoField = false) :
    (transcribe env).status = 400 ∧
    (∃ m, (transcribe env).body = .jsonError m) ∧
    (transcribe env).fs = ⟨false, false⟩ := by
  simp [transcribe, h]

/-- Witness for C7 at a concrete request with no `video` field. -/
theorem transcribe_missing_video_field_witness :
    (transcribe { envHappy with hasVideoField := false }).status = 400 ∧
    (∃ m, (transcribe { envHappy with hasVideoField := false }).body = .jsonError m) ∧
    (transcribe { envHappy with hasVideoField := false }).fs = ⟨false, false⟩ :=
  transcribe_missing_video_field _ rfl

/-- Claim C1, counterexample: when the clip open step fails after the
`.wav` temp path has been allocated (and hence the file created), the
extracted audio temp file still exists after the response — cleanup
is not guaranteed on this path. -/
theorem transcribe_clip_failure_leaks_audio_temp :
    (transcribe { envHappy with clipOpenFails := true }).fs.audioExists = true := by
  decide

/-- Claim C1, amended: per request at most the one staged video and
the one extracted audio temp file exist; the staged video temp file
is always removed before the response; the extracted audio temp file
is removed except when audio extraction fails after allocating its
`.wav` path (clip open failure, missing audio stream, or transcode
failure), in which case it is left behind. -/
theorem transcribe_cleanup_amended (env : Env) :
    (transcribe env).fs.videoExists = false ∧
    ((transcribe env).fs.audioExists = true ↔
      env.hasVideoField = true ∧ env.ffmpegOk = true ∧
      (env.clipOpenFails = true ∨ env.hasAudioStream = false ∨
        env.writeAudioFails = true)) := by
  obtain ⟨hv, ff, co, cm, has, wf, wm, ml, whf, whm, wt⟩ := env
  cases hv <;> cases ff <;> cases co <;> cases has <;> cases wf <;>
    cases ml <;> cases whf <;>
    simp [transcribe, extract_audio, tryBlock, transcribe_audio, finallyBlock]

/-- Claim C2: evaluation at the failing input.  A request whose video
has no audio stream ends with status 500 but with the framework's
generic error page, not the JSON body `{"error": "No audio stream
found in video"}`: the `finally` block evaluates
`os.path.exists(None)`, whose `TypeError` discards the pending JSON
response.  The staged video temp file is removed; the `.wav` temp
file is leaked. -/
theorem transcribe_no_audio_stream_returns_generic_500 :
    transcribe { envHappy with hasAudioStream := false } =
      ⟨500, .internalError, ⟨false, true⟩⟩ ∧
    TBody.internalError ≠ .jsonError "No audio stream found in video" := by
  exact ⟨by decide, by simp⟩

/-! ## Claims about the export endpoint -/

/-- Claim C8: a `/download_excel` request whose body is absent or
empty — the parser yields no data, or a falsy value such as `{}` or
`""` — gets status 400 with an error body, not 500. -/
theorem download_excel_empty_body_400 (parsed : Option JVal)
    (h : parsed = none ∨ ∃ v, parsed = some v ∧ pyTruthy v = false) :
    (download_excel parsed).status = 400 ∧
    ∃ m, download_excel parsed = .badRequest m := by
  rcases h with h | ⟨v, rfl, hv⟩
  · subst h
    exact ⟨rfl, _, rfl⟩
  · simp [download_excel, hv, ExportResponse.status]

/-- Witness for C8 at the empty-object body. -/
theorem download_excel_empty_body_400_witness :
    (download_excel (some (.obj []))).status = 400 ∧
    ∃ m, download_excel (some (.obj [])) = .badRequest m :=
  download_excel_empty_body_400 _ (Or.inr ⟨.obj [], rfl, rfl⟩)

/-- Claim C4, counterexample: in a body whose `transcription` field is
missing, the produced row renders it as the empty string, not as the
`N/A` placeholder — so not every missing field is rendered `N/A`. -/
theorem download_excel_missing_transcription_not_na :
    download_excel (some (.obj [("extracted_info", .obj [])])) =
      .file [⟨.str "N/A", .str "N/A", .str ""⟩] ∧
    JVal.str "" ≠ .str "N/A" := by
  exact ⟨rfl, by simp⟩

/-- Claim C4, amended: for a body shaped like a transcribe response,
the spreadsheet has exactly one row whose Location, Name and
Transcription columns equal the corresponding input fields; a missing
`extracted_info` (or a missing `location`/`name` key inside it) is
rendered as `N/A`, while a missing `transcription` is rendered as the
empty string. -/
theorem download_excel_single_row (t l n : String) :
    download_excel (some (.obj [("transcription", .str t),
        ("extracted_info", .obj [("location", .str l), ("name", .str n)])])) =
      .file [⟨.str l, .str n, .str t⟩] ∧
    download_excel (some (.obj [("transcription", .str t)])) =
      .file [⟨.str "N/A", .str "N/A", .str t⟩] ∧
    download_excel (some (.obj [("extracted_info",
        .obj [("location", .str l), ("name", .str n)])])) =
      .file [⟨.str l, .str n, .str ""⟩] := by
  refine ⟨rfl, rfl, rfl⟩

/-- Claim C10: the `N/A` placeholder is applied only on key absence —
an `extracted_info` key present with an explicit null is written
through as null, and an absent `transcription` is written as the
empty string. -/
theorem download_excel_null_passthrough (t : JVal) (rest : List (String × JVal)) :
    download_excel (some (.obj (("transcription", t) :: ("extracted_info",
        .obj [("name", .null), ("location", .null)]) :: rest))) =
      .file [⟨.null, .null, t⟩] ∧
    download_excel (some (.obj [("extracted_info", .obj [("location", .null)])])) =
      .file [⟨.null, .str "N/A", .str ""⟩] ∧
    download_excel (some (.obj [("other", .str "x")])) =
      .file [⟨.str "N/A", .str "N/A", .str ""⟩] := by
  refine ⟨rfl, rfl, rfl⟩

end VideoApp
